import Mathlib

/-!
Verification of the author-service domain core (hexagonal-architecture
example, Rust).  The development shallowly embeds the value objects of
models.rs and model.rs, the repository adapter of database.rs over a
modelled SQLite store, and the HTTP error mapping of http/handler.rs,
then settles the frozen claims about them.

Raw text is modelled as List Char; a Rust String literal s is written
via the Lean coercion s.data.
-/

/-- Codepoints of the Unicode White_Space property, which is exactly the
set of characters removed by the trim method on Rust string slices. -/
def isRustWhitespace (c : Char) : Bool :=
  c.toNat == 9 || c.toNat == 10 || c.toNat == 11 || c.toNat == 12 ||
  c.toNat == 13 || c.toNat == 32 || c.toNat == 133 || c.toNat == 160 ||
  c.toNat == 5760 || c.toNat == 8192 || c.toNat == 8193 || c.toNat == 8194 ||
  c.toNat == 8195 || c.toNat == 8196 || c.toNat == 8197 || c.toNat == 8198 ||
  c.toNat == 8199 || c.toNat == 8200 || c.toNat == 8201 || c.toNat == 8202 ||
  c.toNat == 8232 || c.toNat == 8233 || c.toNat == 8239 || c.toNat == 8287 ||
  c.toNat == 12288

/-- Models str trim_start: drop leading whitespace. -/
def rustTrimLeft (s : List Char) : List Char :=
  s.dropWhile isRustWhitespace

/-- Models str trim_end: drop trailing whitespace. -/
def rustTrimRight (s : List Char) : List Char :=
  (s.reverse.dropWhile isRustWhitespace).reverse

/-- Models str trim: drop leading and trailing whitespace. -/
def rustTrim (s : List Char) : List Char :=
  rustTrimRight (rustTrimLeft s)

/-!
A small regular-expression core, enough to embed the one pattern the
source compiles (the email shape check in models.rs and model.rs).
Matching is by Brzozowski derivatives; an inductive language semantics
is proved to over-approximate the matcher, which is what the proofs
about accepted strings need.
-/

/-- Syntax of regular expressions over characters, with character
classes given as boolean predicates. -/
inductive Rx : Type where
  | fail : Rx
  | eps : Rx
  | pred : (Char → Bool) → Rx
  | cat : Rx → Rx → Rx
  | alt : Rx → Rx → Rx
  | star : Rx → Rx

/-- True when the expression accepts the empty string. -/
def Rx.nullable : Rx → Bool
  | .fail => false
  | .eps => true
  | .pred _ => false
  | .cat a b => a.nullable && b.nullable
  | .alt a b => a.nullable || b.nullable
  | .star _ => true

/-- Brzozowski derivative with respect to one character. -/
def Rx.deriv : Rx → Char → Rx
  | .fail, _ => .fail
  | .eps, _ => .fail
  | .pred p, c => if p c then .eps else .fail
  | .cat a b, c =>
    if a.nullable then .alt (.cat (a.deriv c) b) (b.deriv c)
    else .cat (a.deriv c) b
  | .alt a b, c => .alt (a.deriv c) (b.deriv c)
  | .star a, c => .cat (a.deriv c) (.star a)

/-- Full-string matching by iterated derivatives. -/
def Rx.rmatch : Rx → List Char → Bool
  | r, [] => r.nullable
  | r, c :: s => (r.deriv c).rmatch s

/-- Language semantics of a regular expression, as an inductive
predicate on character lists. -/
inductive RxLang : Rx → List Char → Prop where
  | eps : RxLang .eps []
  | pred {p : Char → Bool} {c : Char} : p c = true → RxLang (.pred p) [c]
  | cat {a b : Rx} {s t : List Char} :
      RxLang a s → RxLang b t → RxLang (.cat a b) (s ++ t)
  | altL {a b : Rx} {s : List Char} : RxLang a s → RxLang (.alt a b) s
  | altR {a b : Rx} {s : List Char} : RxLang b s → RxLang (.alt a b) s
  | starNil {a : Rx} : RxLang (.star a) []
  | starCons {a : Rx} {s t : List Char} :
      RxLang a s → RxLang (.star a) t → RxLang (.star a) (s ++ t)

theorem RxLang.of_nullable {r : Rx} (h : r.nullable = true) : RxLang r [] := by
  induction r with
  | fail => simp [Rx.nullable] at h
  | eps => exact .eps
  | pred p => simp [Rx.nullable] at h
  | cat a b iha ihb =>
    simp [Rx.nullable] at h
    exact (List.nil_append ([] : List Char)) ▸ RxLang.cat (iha h.1) (ihb h.2)
  | alt a b iha ihb =>
    simp [Rx.nullable] at h
    rcases h with h | h
    · exact .altL (iha h)
    · exact .altR (ihb h)
  | star a _ => exact .starNil

theorem RxLang.of_deriv {r : Rx} {c : Char} {s : List Char}
    (h : RxLang (r.deriv c) s) : RxLang r (c :: s) := by
  induction r generalizing s with
  | fail => exact absurd h (by intro h; cases h)
  | eps => exact absurd h (by intro h; cases h)
  | pred p =>
    by_cases hp : p c = true
    · simp [Rx.deriv, hp] at h
      cases h
      exact .pred hp
    · simp [Rx.deriv, hp] at h
      cases h
  | cat a b iha ihb =>
    by_cases hn : a.nullable = true
    · simp [Rx.deriv, hn] at h
      cases h with
      | altL h =>
        cases h with
        | cat h1 h2 =>
          exact (List.cons_append c _ _) ▸ RxLang.cat (iha h1) h2
      | altR h =>
        have := RxLang.cat (RxLang.of_nullable hn) (ihb h)
        simpa using this
    · simp [Rx.deriv, hn] at h
      cases h with
      | cat h1 h2 =>
        exact (List.cons_append c _ _) ▸ RxLang.cat (iha h1) h2
  | alt a b iha ihb =>
    cases h with
    | altL h => exact .altL (iha h)
    | altR h => exact .altR (ihb h)
  | star a iha =>
    cases h with
    | cat h1 h2 =>
      exact (List.cons_append c _ _) ▸ RxLang.starCons (iha h1) h2

theorem RxLang.of_rmatch {r : Rx} {s : List Char}
    (h : r.rmatch s = true) : RxLang r s := by
  induction s generalizing r with
  | nil => exact RxLang.of_nullable h
  | cons c t ih => exact RxLang.of_deriv (ih h)

/-!
Character classes of the email pattern compiled in models.rs and
model.rs.  The pattern source is, with codepoints spelled out below:
caret, class of ascii letters, digits and the punctuation codepoints
33 35 36 37 38 39 42 43 45 47 61 63 94 95 96 123 124 126 (and 125),
repeated once or more; an optional group of any character followed by
that class once or more; an at sign; ascii alphanumerics once or more;
an optional group of a hyphen followed by ascii alphanumerics once or
more; any character; two or three lowercase ascii letters; dollar.
The two single-character wildcards are unescaped dots in the source
pattern; the regex crate gives a dot the meaning of any character other
than a line feed, which is reproduced here.
-/

/-- Class of characters allowed in the local part of the pattern:
ascii letters, digits, and the punctuation codepoints listed in the
source character class. -/
def localChar (c : Char) : Bool :=
  (65 ≤ c.toNat && c.toNat ≤ 90) || (97 ≤ c.toNat && c.toNat ≤ 122) ||
  (48 ≤ c.toNat && c.toNat ≤ 57) ||
  c.toNat == 33 || c.toNat == 35 || c.toNat == 36 || c.toNat == 37 ||
  c.toNat == 38 || c.toNat == 39 || c.toNat == 42 || c.toNat == 43 ||
  c.toNat == 45 || c.toNat == 47 || c.toNat == 61 || c.toNat == 63 ||
  c.toNat == 94 || c.toNat == 95 || c.toNat == 96 || c.toNat == 123 ||
  c.toNat == 124 || c.toNat == 125 || c.toNat == 126

/-- Class of ascii alphanumerics, used for the domain labels. -/
def alnumChar (c : Char) : Bool :=
  (65 ≤ c.toNat && c.toNat ≤ 90) || (97 ≤ c.toNat && c.toNat ≤ 122) ||
  (48 ≤ c.toNat && c.toNat ≤ 57)

/-- Class of lowercase ascii letters, used for the top-level suffix. -/
def lowerChar (c : Char) : Bool :=
  97 ≤ c.toNat && c.toNat ≤ 122

/-- Wildcard of the regex crate: a dot matches any character other
than a line feed. -/
def dotChar (c : Char) : Bool :=
  !(c.toNat == 10)

/-- Class accepting exactly the character with the given codepoint. -/
def Rx.chr (n : Nat) : Rx :=
  .pred (fun c => c.toNat == n)

/-- One or more repetitions of a character class. -/
def Rx.plus (p : Char → Bool) : Rx :=
  .cat (.pred p) (.star (.pred p))

/-- Zero or one occurrence of an expression. -/
def Rx.opt (r : Rx) : Rx :=
  .alt r .eps

/-- Translation of the email pattern of models.rs line 52 and model.rs
line 66, piece by piece in source order.  Codepoint 64 is the at sign
and codepoint 45 the hyphen; the two dotChar wildcards are the
unescaped dots of the source pattern. -/
def emailRx : Rx :=
  .cat (.plus localChar)
  (.cat (.opt (.cat (.pred dotChar) (.plus localChar)))
  (.cat (.chr 64)
  (.cat (.plus alnumChar)
  (.cat (.opt (.cat (.chr 45) (.plus alnumChar)))
  (.cat (.pred dotChar)
  (.cat (.pred lowerChar)
  (.cat (.pred lowerChar)
  (.opt (.pred lowerChar)))))))))

/-!
Value objects of models.rs (the repositories-variant module): AuthorName
and EmailAddress with a validating constructor, an unchecked constructor
for rehydration from storage, and a Display rendering of the inner text.
-/

namespace Models

/-- Error of the validating AuthorName constructor, models.rs line 31. -/
structure AuthorNameEmptyError where
deriving DecidableEq

/-- Validated author name wrapper, models.rs line 6. -/
structure AuthorName where
  val : List Char
deriving DecidableEq

/-- Validating constructor, models.rs lines 9 to 16: trim, reject empty,
otherwise keep the trimmed text. -/
def AuthorName.new (raw : List Char) : Except AuthorNameEmptyError AuthorName :=
  let trimmed := rustTrim raw
  if trimmed.isEmpty then .error ⟨⟩ else .ok ⟨trimmed⟩

/-- Unchecked constructor, models.rs lines 18 to 20: wrap the raw text
with no trimming and no validation. -/
def AuthorName.new_unchecked (raw : List Char) : AuthorName :=
  ⟨raw⟩

/-- Display rendering, models.rs lines 23 to 27: the inner text. -/
def AuthorName.display (n : AuthorName) : List Char :=
  n.val

/-- Error of the validating EmailAddress constructor carrying the
rejected trimmed text, models.rs line 66. -/
structure EmailAddressError where
  val : List Char
deriving DecidableEq

/-- Validated email wrapper, models.rs line 34. -/
structure EmailAddress where
  val : List Char
deriving DecidableEq

/-- Shape check of models.rs lines 50 to 55: match against the compiled
email pattern. -/
def EmailAddress.is_valid (s : List Char) : Bool :=
  emailRx.rmatch s

/-- Validating constructor, models.rs lines 37 to 44: trim, then accept
exactly when the trimmed text matches the pattern. -/
def EmailAddress.new (raw : List Char) : Except EmailAddressError EmailAddress :=
  let trimmed := rustTrim raw
  if EmailAddress.is_valid trimmed then .ok ⟨trimmed⟩ else .error ⟨trimmed⟩

/-- Unchecked constructor, models.rs lines 46 to 48. -/
def EmailAddress.new_unchecked (raw : List Char) : EmailAddress :=
  ⟨raw⟩

/-- Display rendering, models.rs lines 58 to 62. -/
def EmailAddress.display (e : EmailAddress) : List Char :=
  e.val

end Models

/-!
Value objects of model.rs (the store-variant module).  Same shape checks
as models.rs; the constructor of EmailAddress additionally distinguishes
an Empty error from an Invalid error.
-/

namespace Model

/-- Error enumeration of model.rs lines 29 to 32. -/
inductive AuthorNameError : Type where
  | Invalid : List Char → AuthorNameError
  | Empty : AuthorNameError
deriving DecidableEq

/-- Validated author name wrapper, model.rs line 5. -/
structure AuthorName where
  val : List Char
deriving DecidableEq

/-- Validating constructor, model.rs lines 8 to 15. -/
def AuthorName.new (raw : List Char) : Except AuthorNameError AuthorName :=
  let trimmed := rustTrim raw
  if trimmed.isEmpty then .error .Empty else .ok ⟨trimmed⟩

/-- Unchecked constructor, model.rs lines 17 to 19. -/
def AuthorName.new_unchecked (raw : List Char) : AuthorName :=
  ⟨raw⟩

/-- Display rendering, model.rs lines 22 to 26. -/
def AuthorName.display (n : AuthorName) : List Char :=
  n.val

/-- Error enumeration of model.rs lines 79 to 82. -/
inductive EmailAddressError : Type where
  | Invalid : List Char → EmailAddressError
  | Empty : EmailAddressError
deriving DecidableEq

/-- Validated email wrapper, model.rs line 46. -/
structure EmailAddress where
  val : List Char
deriving DecidableEq

/-- Shape check of model.rs lines 64 to 69: same pattern as models.rs. -/
def EmailAddress.is_valid (s : List Char) : Bool :=
  emailRx.rmatch s

/-- Validating constructor, model.rs lines 49 to 58: trim, reject empty,
reject a pattern mismatch, otherwise accept. -/
def EmailAddress.new (raw : List Char) : Except EmailAddressError EmailAddress :=
  let trimmed := rustTrim raw
  if trimmed.isEmpty then .error .Empty
  else if !(EmailAddress.is_valid trimmed) then .error (.Invalid trimmed)
  else .ok ⟨trimmed⟩

/-- Unchecked constructor, model.rs lines 60 to 62. -/
def EmailAddress.new_unchecked (raw : List Char) : EmailAddress :=
  ⟨raw⟩

/-- Display rendering, model.rs lines 72 to 76. -/
def EmailAddress.display (e : EmailAddress) : List Char :=
  e.val

end Model

theorem ws_class_false {c : Char} (h : isRustWhitespace c = true) :
    localChar c = false ∧ lowerChar c = false := by
  simp only [isRustWhitespace, Bool.or_eq_true, beq_iff_eq] at h
  refine ⟨?_, ?_⟩ <;>
  · simp only [localChar, lowerChar, Bool.or_eq_false_iff, Bool.and_eq_false_iff,
      decide_eq_false_iff_not, not_le, beq_eq_false_iff_ne, ne_eq]
    omega

theorem rustTrimLeft_cons_of_not_ws {c : Char} {t : List Char}
    (h : isRustWhitespace c = false) : rustTrimLeft (c :: t) = c :: t := by
  simp [rustTrimLeft, List.dropWhile_cons, h]

theorem rustTrimRight_concat_of_not_ws {d : Char} {t : List Char}
    (h : isRustWhitespace d = false) : rustTrimRight (t ++ [d]) = t ++ [d] := by
  simp [rustTrimRight, List.dropWhile_cons, h]

/-- Shape of any string accepted by the email pattern: it starts with a
character of the local class and ends with a lowercase ascii letter. -/
theorem email_match_shape {s : List Char} (h : emailRx.rmatch s = true) :
    (∃ c t, s = c :: t ∧ localChar c = true) ∧
    (∃ d t, s = t ++ [d] ∧ lowerChar d = true) := by
  have hl := RxLang.of_rmatch h
  simp only [emailRx, Rx.plus, Rx.opt, Rx.chr] at hl
  cases hl with
  | cat hLoc hRest =>
    rename_i sLoc sRest
    cases hLoc with
    | cat hHead hStar =>
      rename_i sHead sStar
      cases hHead with
      | pred hc =>
        rename_i c
        cases hRest with
        | cat hOpt1 hR2 =>
          rename_i sOpt1 sR2
          cases hR2 with
          | cat hAt hR3 =>
            rename_i sAt sR3
            cases hR3 with
            | cat hDom hR4 =>
              rename_i sDom sR4
              cases hR4 with
              | cat hOpt2 hR5 =>
                rename_i sOpt2 sR5
                cases hR5 with
                | cat hDot hR6 =>
                  rename_i sDot sR6
                  cases hR6 with
                  | cat hL1 hR7 =>
                    rename_i sL1 sR7
                    cases hL1 with
                    | pred h1 =>
                      rename_i c1
                      cases hR7 with
                      | cat hL2 hOpt3 =>
                        rename_i sL2 sOpt3
                        cases hL2 with
                        | pred h2 =>
                          rename_i c2
                          refine ⟨⟨c, sStar ++ (sOpt1 ++ (sAt ++ (sDom ++ (sOpt2 ++
                            (sDot ++ ([c1] ++ ([c2] ++ sOpt3))))))), by simp, hc⟩, ?_⟩
                          cases hOpt3 with
                          | altL hp =>
                            cases hp with
                            | pred h3 =>
                              rename_i c3
                              exact ⟨c3, (c :: sStar) ++ (sOpt1 ++ (sAt ++ (sDom ++
                                (sOpt2 ++ (sDot ++ ([c1] ++ [c2])))))), by simp, h3⟩
                          | altR he =>
                            cases he
                            exact ⟨c2, (c :: sStar) ++ (sOpt1 ++ (sAt ++ (sDom ++
                              (sOpt2 ++ (sDot ++ [c1]))))), by simp, h2⟩

/-- Strings accepted by the email pattern carry no surrounding
whitespace, so trimming them is the identity. -/
theorem rustTrim_of_email_match {s : List Char} (h : emailRx.rmatch s = true) :
    rustTrim s = s := by
  obtain ⟨⟨c, t, hs1, hc⟩, ⟨d, u, hs2, hd⟩⟩ := email_match_shape h
  have hcw : isRustWhitespace c = false := by
    cases hws : isRustWhitespace c with
    | false => rfl
    | true => exact absurd hc (by simp [(ws_class_false hws).1])
  have hdw : isRustWhitespace d = false := by
    cases hws : isRustWhitespace d with
    | false => rfl
    | true => exact absurd hd (by simp [(ws_class_false hws).2])
  have hleft : rustTrimLeft s = s := by
    rw [hs1]
    exact rustTrimLeft_cons_of_not_ws hcw
  have hright : rustTrimRight s = s := by
    rw [hs2]
    exact rustTrimRight_concat_of_not_ws hdw
  rw [rustTrim, hleft, hright]

/-- C2 (amended): every string matching the compiled email pattern is
accepted by the validating constructor of models.rs and of model.rs and
kept verbatim; the empty string, the string not-an-email, and the
string at-nodomain-dot-com are all rejected by both.  The string
missing-at-domain of the original claim is not among the rejected ones:
it matches the pattern, because the unescaped dot of the pattern lets
the bare word domain parse as label, wildcard, suffix. -/
theorem email_shape_policy :
    (∀ s : List Char, emailRx.rmatch s = true →
      Models.EmailAddress.new s = .ok ⟨s⟩ ∧ Model.EmailAddress.new s = .ok ⟨s⟩) ∧
    ((Models.EmailAddress.new ([])).isOk = false ∧
      (Model.EmailAddress.new ([])).isOk = false) ∧
    ((Models.EmailAddress.new (("not-an-email").data)).isOk = false ∧
      (Model.EmailAddress.new (("not-an-email").data)).isOk = false) ∧
    ((Models.EmailAddress.new (("@nodomain.com").data)).isOk = false ∧
      (Model.EmailAddress.new (("@nodomain.com").data)).isOk = false) := by
  refine ⟨?_, by decide, by decide, by decide⟩
  intro s h
  have htrim : rustTrim s = s := rustTrim_of_email_match h
  obtain ⟨⟨c, t, hs1, _⟩, _⟩ := email_match_shape h
  constructor
  · simp [Models.EmailAddress.new, Models.EmailAddress.is_valid, htrim, h]
  · have hne : s.isEmpty = false := by rw [hs1]; rfl
    simp [Model.EmailAddress.new, Model.EmailAddress.is_valid, htrim, h, hne]

/-- Witness for the universally quantified part of the email policy
theorem, at the concrete address used by the test scenarios of the
specification. -/
theorem email_shape_policy_witness :
    emailRx.rmatch (("jrr.tolkien@example.com").data) = true ∧
    Models.EmailAddress.new (("jrr.tolkien@example.com").data) =
      .ok ⟨("jrr.tolkien@example.com").data⟩ := by
  refine ⟨by decide, ?_⟩
  exact (email_shape_policy.1 (("jrr.tolkien@example.com").data) (by decide)).1

/-- C2 counterexample: the constructor accepts missing-at-domain, which
the original claim lists among the strings it must reject. -/
theorem email_missing_at_domain_accepted :
    (Models.EmailAddress.new (("missing@domain").data)).isOk = true ∧
    (Model.EmailAddress.new (("missing@domain").data)).isOk = true := by
  decide

theorem rustTrimLeft_shape_of_any {raw : List Char}
    (h : raw.any (fun c => !(isRustWhitespace c)) = true) :
    ∃ c t, rustTrimLeft raw = c :: t ∧ isRustWhitespace c = false := by
  induction raw with
  | nil => simp at h
  | cons a t ih =>
    cases hws : isRustWhitespace a with
    | false => exact ⟨a, t, by simp [rustTrimLeft, List.dropWhile_cons, hws], hws⟩
    | true =>
      have ht : t.any (fun c => !(isRustWhitespace c)) = true := by
        simpa [List.any_cons, hws] using h
      obtain ⟨c, u, h1, h2⟩ := ih ht
      exact ⟨c, u, by simpa [rustTrimLeft, List.dropWhile_cons, hws] using h1, h2⟩

theorem rustTrimRight_cons_ne_nil {c : Char} {t : List Char}
    (h : isRustWhitespace c = false) : rustTrimRight (c :: t) ≠ [] := by
  intro hcon
  have hdrop : List.dropWhile isRustWhitespace ((c :: t).reverse) = [] := by
    simpa [rustTrimRight, List.reverse_eq_nil_iff] using hcon
  rw [List.dropWhile_eq_nil_iff] at hdrop
  have := hdrop c (by simp)
  simp [h] at this

theorem rustTrim_ne_nil_of_any {raw : List Char}
    (h : raw.any (fun c => !(isRustWhitespace c)) = true) :
    rustTrim raw ≠ [] := by
  obtain ⟨c, t, h1, h2⟩ := rustTrimLeft_shape_of_any h
  rw [rustTrim, h1]
  exact rustTrimRight_cons_ne_nil h2

theorem rustTrim_eq_nil_of_all {raw : List Char}
    (h : raw.all isRustWhitespace = true) : rustTrim raw = [] := by
  have hleft : rustTrimLeft raw = [] := by
    rw [rustTrimLeft, List.dropWhile_eq_nil_iff]
    intro x hx
    exact (List.all_eq_true.mp h) x hx
  rw [rustTrim, hleft]
  rfl

/-- C5: a string with some non-whitespace character is accepted by the
validating AuthorName constructors of both modules, and the value kept,
and rendered by Display, is exactly the trimmed input; an empty or
all-whitespace string is rejected with the empty-name error. -/
theorem author_name_new_spec (raw : List Char) :
    (raw.any (fun c => !(isRustWhitespace c)) = true →
      Models.AuthorName.new raw = .ok ⟨rustTrim raw⟩ ∧
      Models.AuthorName.display ⟨rustTrim raw⟩ = rustTrim raw ∧
      Model.AuthorName.new raw = .ok ⟨rustTrim raw⟩ ∧
      Model.AuthorName.display ⟨rustTrim raw⟩ = rustTrim raw) ∧
    (raw.all isRustWhitespace = true →
      Models.AuthorName.new raw = .error ⟨⟩ ∧
      Model.AuthorName.new raw = .error .Empty) := by
  constructor
  · intro h
    have hne := rustTrim_ne_nil_of_any h
    cases htr : rustTrim raw with
    | nil => exact absurd htr hne
    | cons x xs =>
      refine ⟨?_, rfl, ?_, rfl⟩
      · simp [Models.AuthorName.new, htr]
      · simp [Model.AuthorName.new, htr]
  · intro h
    have htr := rustTrim_eq_nil_of_all h
    constructor
    · simp [Models.AuthorName.new, htr]
    · simp [Model.AuthorName.new, htr]

/-- Witness for the author-name theorem at a concrete padded name. -/
theorem author_name_new_spec_witness :
    ((" JRR Tolkien ").data.any (fun c => !(isRustWhitespace c)) = true) ∧
    Models.AuthorName.new ((" JRR Tolkien ").data) = .ok ⟨("JRR Tolkien").data⟩ := by
  refine ⟨by decide, ?_⟩
  have h := (author_name_new_spec ((" JRR Tolkien ").data)).1 (by decide)
  have e : rustTrim ((" JRR Tolkien ").data) = ("JRR Tolkien").data := by decide
  exact e ▸ h.1

/-- C10: the unchecked constructors of both modules keep the raw text
verbatim, with no trimming and no validation, so rehydrated values can
violate the trimmed-non-empty name invariant and the email shape
invariant; the final two conjuncts exhibit such values. -/
theorem unchecked_constructors_identity (raw : List Char) :
    (Models.AuthorName.new_unchecked raw).display = raw ∧
    (Models.EmailAddress.new_unchecked raw).display = raw ∧
    (Model.AuthorName.new_unchecked raw).display = raw ∧
    (Model.EmailAddress.new_unchecked raw).display = raw ∧
    rustTrim ((Models.AuthorName.new_unchecked ((" ").data)).display) = [] ∧
    Models.EmailAddress.is_valid
      ((Models.EmailAddress.new_unchecked (("x").data)).display) = false := by
  exact ⟨rfl, rfl, rfl, rfl, by decide, by decide⟩

/-!
Backend error model.  SqlxError stands for the sqlx error enumeration as
the adapter observes it: the RowNotFound value, a backend database error
with its code and uniqueness flag, or any other failure such as lost
connectivity.  Per the sqlx documentation, RowNotFound is produced only
by fetch_one on an empty result set; execute reports the number of rows
affected and a statement matching zero rows is a success.  AnyhowError
stands for an anyhow error chain: a wrapped source error plus context
strings.
-/

/-- Backend database error as exposed by sqlx: optional code string, the
uniqueness-violation flag of the is-unique-violation method, and a
message. -/
structure DatabaseError where
  code : Option String
  unique_violation : Bool
  message : String
deriving DecidableEq

/-- Sqlx error enumeration, restricted to the shapes the adapter
distinguishes. -/
inductive SqlxError : Type where
  | RowNotFound : SqlxError
  | Database : DatabaseError → SqlxError
  | Io : String → SqlxError
deriving DecidableEq

/-- Anyhow error chain: a wrapped sqlx error with zero or more context
strings around it. -/
inductive AnyhowError : Type where
  | fromSqlx : SqlxError → AnyhowError
  | context : String → AnyhowError → AnyhowError
deriving DecidableEq

namespace Models

/-- Author entity of models.rs lines 68 to 91. -/
structure Author where
  id : Int
  name : AuthorName
  email : EmailAddress
deriving DecidableEq

/-- Create request of models.rs lines 93 to 111. -/
structure CreateAuthorRequest where
  name : AuthorName
  email : EmailAddress
deriving DecidableEq

/-- Create error enumeration of models.rs lines 113 to 119. -/
inductive CreateAuthorError : Type where
  | Duplicate : List Char → CreateAuthorError
  | Other : AnyhowError → CreateAuthorError
deriving DecidableEq

/-- Find request of models.rs lines 121 to 134. -/
structure FindAuthorRequest where
  id : Int
deriving DecidableEq

/-- Find error enumeration of models.rs lines 136 to 142. -/
inductive FindAuthorError : Type where
  | NotFound : Int → FindAuthorError
  | Other : AnyhowError → FindAuthorError
deriving DecidableEq

/-- Partial-update request of models.rs lines 148 to 183: an id plus
optional name and optional email. -/
structure UpdateAuthorRequest where
  id : Int
  name : Option AuthorName
  email : Option EmailAddress
deriving DecidableEq

/-- Constructor of models.rs lines 156 to 162: both fields absent. -/
def UpdateAuthorRequest.new (id : Int) : UpdateAuthorRequest :=
  ⟨id, none, none⟩

/-- Setter of models.rs lines 172 to 174. -/
def UpdateAuthorRequest.set_name (r : UpdateAuthorRequest) (n : AuthorName) :
    UpdateAuthorRequest :=
  { r with name := some n }

/-- Setter of models.rs lines 180 to 182. -/
def UpdateAuthorRequest.set_email (r : UpdateAuthorRequest) (e : EmailAddress) :
    UpdateAuthorRequest :=
  { r with email := some e }

/-- Update error enumeration of models.rs lines 185 to 191. -/
inductive UpdateAuthorError : Type where
  | NotFound : Int → UpdateAuthorError
  | Other : AnyhowError → UpdateAuthorError
deriving DecidableEq

/-- Delete request of models.rs lines 193 to 206. -/
structure DeleteAuthorRequest where
  id : Int
deriving DecidableEq

/-- Delete error enumeration of models.rs lines 208 to 214. -/
inductive DeleteAuthorError : Type where
  | NotFound : Int → DeleteAuthorError
  | Other : AnyhowError → DeleteAuthorError
deriving DecidableEq

end Models

namespace Database

/-- Persisted author row: generated id, name text, email text. -/
structure Row where
  id : Int
  name : List Char
  email : List Char
deriving DecidableEq

/-- State of the author table. -/
abbrev Store := List Row

/-- Models sqlx fetch_one over the rows a query returns: the first row,
or the RowNotFound error when the result set is empty.  Per the sqlx
documentation this is the only source of the RowNotFound value. -/
def fetchOne (rows : List Row) : Except SqlxError Row :=
  match rows with
  | [] => .error .RowNotFound
  | r :: _ => .ok r

/-- Models the SELECT by id query text of database.rs line 80. -/
def selectAuthorById (store : Store) (id : Int) : List Row :=
  store.filter (fun r => r.id == id)

/-- FromRow conversion of database.rs lines 42 to 52: rehydrate the
entity through the unchecked constructors. -/
def fromRow (r : Row) : Models.Author :=
  ⟨r.id, Models.AuthorName.new_unchecked r.name, Models.EmailAddress.new_unchecked r.email⟩

/-- Uniqueness-violation detection of database.rs lines 167 to 173: a
database-kind error whose uniqueness flag is set; anything else is not
a uniqueness violation. -/
def is_unique_violation (e : SqlxError) : Bool :=
  match e with
  | .Database d => d.unique_violation
  | _ => false

/-- Create operation of database.rs lines 56 to 77.  The INSERT runs on
the backend, whose outcome is the second argument; this function is the
error mapping the adapter wraps around it, followed by row rehydration
on success. -/
def create_author (req : Models.CreateAuthorRequest)
    (res : Except SqlxError Row) : Except Models.CreateAuthorError Models.Author :=
  match res with
  | .ok row => .ok (fromRow row)
  | .error err =>
    if is_unique_violation err then
      .error (.Duplicate req.name.val)
    else
      .error (.Other (.context
        ("Failed to create author with name \"" ++ String.mk req.name.val ++ "\"")
        (.fromSqlx err)))

/-- Find operation of database.rs lines 79 to 97 over a healthy
backend: fetch one row by id, mapping RowNotFound to the NotFound error
carrying the requested id and anything else to Other with context. -/
def find_author (store : Store) (req : Models.FindAuthorRequest) :
    Except Models.FindAuthorError Models.Author :=
  match fetchOne (selectAuthorById store req.id) with
  | .ok row => .ok (fromRow row)
  | .error .RowNotFound => .error (.NotFound req.id)
  | .error err =>
    .error (.Other (.context
      ("Failed to retrieve author with id \"" ++ toString req.id ++ "\"")
      (.fromSqlx err)))

/-- Models sqlx execute of the DELETE statement of database.rs line
149 on a healthy backend: remove the matching rows and report how many
were affected.  A DELETE matching zero rows is a success with zero rows
affected; execute never produces RowNotFound. -/
def sqlite_exec_delete (store : Store) (id : Int) :
    Except SqlxError (Store × Nat) :=
  .ok (store.filter (fun r => !(r.id == id)),
       (store.filter (fun r => r.id == id)).length)

/-- Delete operation of database.rs lines 148 to 164: execute the
DELETE and apply the error mapping of the source (RowNotFound to
NotFound, otherwise Other).  The success value carries the post-state
of the table. -/
def delete_author (store : Store) (req : Models.DeleteAuthorRequest) :
    Except Models.DeleteAuthorError Store :=
  match sqlite_exec_delete store req.id with
  | .ok (s2, _) => .ok s2
  | .error .RowNotFound => .error (.NotFound req.id)
  | .error err =>
    .error (.Other (.context
      ("Failed to delete author with id \"" ++ toString req.id ++ "\"")
      (.fromSqlx err)))

/-- SET-clause fragments pushed by database.rs lines 112 to 122, in
source order: name first, then email, each present exactly when the
optional field is set. -/
def updateParts (req : Models.UpdateAuthorRequest) : List String :=
  (match req.name with | some _ => [("name = ?")] | none => []) ++
  (match req.email with | some _ => [("email = ?")] | none => [])

/-- Bind values pushed by database.rs lines 112 to 122, in the same
order as the fragments. -/
def updateBinds (req : Models.UpdateAuthorRequest) : List (List Char) :=
  (match req.name with | some n => [n.val] | none => []) ++
  (match req.email with | some e => [e.val] | none => [])

/-- Statement text built by database.rs line 124: the fragments joined
with a comma and spliced between the fixed prefix and suffix. -/
def updateSql (req : Models.UpdateAuthorRequest) : String :=
  "UPDATE author SET " ++ String.intercalate (", ") (updateParts req) ++ " WHERE id = ?"

/-- Row after an UPDATE assignment list: set the bound columns, keep
the rest. -/
def updateRow (r : Row) (name : Option (List Char)) (email : Option (List Char)) : Row :=
  { r with name := name.getD r.name, email := email.getD r.email }

/-- Models SQLite applying an UPDATE to the rows matching the id: the
new table and the number of rows affected. -/
def applyUpdate (store : Store) (id : Int) (name : Option (List Char))
    (email : Option (List Char)) : Store × Nat :=
  (store.map (fun r => if r.id == id then updateRow r name email else r),
   (store.filter (fun r => r.id == id)).length)

/-- Syntax error SQLite reports when asked to prepare malformed
statement text; its code 1 is the generic SQLITE_ERROR and not a
uniqueness violation. -/
def syntaxError : SqlxError :=
  .Database ⟨some ("1"), false, "syntax error"⟩

/-- Models sqlx execute of dynamically built UPDATE text on a healthy
backend.  The three statement texts the adapter can build from a
non-empty assignment list are executed; any other text fails to prepare
with a syntax error.  An UPDATE matching zero rows is a success with
zero rows affected; execute never produces RowNotFound. -/
def sqlite_exec_update (sql : String) (binds : List (List Char)) (id : Int)
    (store : Store) : Except SqlxError (Store × Nat) :=
  if sql = "UPDATE author SET name = ? WHERE id = ?" then
    match binds with
    | [n] => .ok (applyUpdate store id (some n) none)
    | _ => .error (.Io ("parameter count mismatch"))
  else if sql = "UPDATE author SET email = ? WHERE id = ?" then
    match binds with
    | [e] => .ok (applyUpdate store id none (some e))
    | _ => .error (.Io ("parameter count mismatch"))
  else if sql = "UPDATE author SET name = ?, email = ? WHERE id = ?" then
    match binds with
    | [n, e] => .ok (applyUpdate store id (some n) (some e))
    | _ => .error (.Io ("parameter count mismatch"))
  else
    .error syntaxError

/-- Update operation of database.rs lines 111 to 146: build the
statement text and binds from the optional fields, execute, and apply
the error mapping of the source (RowNotFound to NotFound, otherwise
Other).  The success value carries the post-state of the table. -/
def update_author (store : Store) (req : Models.UpdateAuthorRequest) :
    Except Models.UpdateAuthorError (Store × Unit) :=
  match sqlite_exec_update (updateSql req) (updateBinds req) req.id store with
  | .ok (s2, _) => .ok (s2, ())
  | .error .RowNotFound => .error (.NotFound req.id)
  | .error err =>
    .error (.Other (.context
      ("Failed to update author with id \"" ++ toString req.id ++ "\"")
      (.fromSqlx err)))

end Database

/-- C6: finding an id that matches no stored row fails with the
NotFound error, and the id inside the error is the requested one. -/
theorem find_author_missing_id_not_found (store : Database.Store) (id : Int)
    (h : ∀ r ∈ store, r.id ≠ id) :
    Database.find_author store ⟨id⟩ = .error (.NotFound id) := by
  have hsel : Database.selectAuthorById store id = [] := by
    rw [Database.selectAuthorById, List.filter_eq_nil_iff]
    intro r hr
    simp [h r hr]
  rw [Database.find_author]
  simp only [hsel]
  rfl

/-- Witness for the find theorem, at the never-created id of the
concrete scenario in the specification. -/
theorem find_author_missing_id_not_found_witness :
    (∀ r ∈ ([] : Database.Store), r.id ≠ 999999) ∧
    Database.find_author ([] : Database.Store) ⟨999999⟩ = .error (.NotFound 999999) :=
  ⟨by simp, find_author_missing_id_not_found [] 999999 (by simp)⟩

/-- C1 divergence, evaluated: deleting id 2 from a table holding only
id 1 succeeds and leaves the table unchanged, instead of failing with
NotFound as the claim states, because a DELETE matching zero rows is a
success for execute; the dead RowNotFound arm of the source is never
taken.  The second conjunct shows the second half of the claim does
hold: after deleting existing id 1, finding id 1 fails with NotFound. -/
theorem delete_author_missing_id_succeeds :
    Database.delete_author
        ([⟨1, ("JRR Tolkien").data, ("jrr.tolkien@example.com").data⟩]) ⟨2⟩ =
      .ok ([⟨1, ("JRR Tolkien").data, ("jrr.tolkien@example.com").data⟩]) ∧
    (Database.delete_author
        ([⟨1, ("JRR Tolkien").data, ("jrr.tolkien@example.com").data⟩]) ⟨1⟩ =
      .ok ([]) ∧
     Database.find_author ([] : Database.Store) ⟨1⟩ = .error (.NotFound 1)) :=
  ⟨rfl, rfl, rfl⟩

/-- C3 divergence, evaluated: an update of id 1 with a new name against
an empty table succeeds with zero rows affected, instead of failing
with NotFound as the claim states, because an UPDATE matching zero rows
is a success for execute; the dead RowNotFound arm of the source is
never taken. -/
theorem update_author_missing_id_succeeds :
    Database.update_author ([] : Database.Store)
      ((Models.UpdateAuthorRequest.new 1).set_name ⟨("New Name").data⟩) =
      .ok ([], ()) :=
  rfl

/-- C4: the create error mapping sends a backend uniqueness violation
to the Duplicate error carrying the requested name, and every other
backend failure to the Other kind, which preserves the underlying
cause inside the context chain. -/
theorem create_author_error_mapping (req : Models.CreateAuthorRequest)
    (err : SqlxError) :
    (Database.is_unique_violation err = true →
      Database.create_author req (.error err) = .error (.Duplicate req.name.val)) ∧
    (Database.is_unique_violation err = false →
      Database.create_author req (.error err) =
        .error (.Other (.context
          ("Failed to create author with name \"" ++ String.mk req.name.val ++ "\"")
          (.fromSqlx err)))) := by
  constructor <;> intro h <;> simp [Database.create_author, h]

/-- Witness for the create error mapping, at the uniqueness-violation
code SQLite reports for a duplicate name. -/
theorem create_author_error_mapping_witness :
    Database.is_unique_violation
      (.Database ⟨some ("2067"), true, ("UNIQUE constraint failed: author.name")⟩) = true ∧
    Database.create_author
      ⟨⟨("JRR Tolkien").data⟩, ⟨("jrr.tolkien@example.com").data⟩⟩
      (.error (.Database ⟨some ("2067"), true, ("UNIQUE constraint failed: author.name")⟩)) =
      .error (.Duplicate (("JRR Tolkien").data)) :=
  ⟨rfl, (create_author_error_mapping
    ⟨⟨("JRR Tolkien").data⟩, ⟨("jrr.tolkien@example.com").data⟩⟩
    (.Database ⟨some ("2067"), true, ("UNIQUE constraint failed: author.name")⟩)).1 rfl⟩

/-- C9: an update request with neither optional field set builds the
malformed statement text with an empty SET clause, so the call never
succeeds: for every id and every table state it returns an error of the
Other kind. -/
theorem empty_update_request_always_errors (id : Int) (store : Database.Store) :
    Database.updateSql (Models.UpdateAuthorRequest.new id) =
      "UPDATE author SET  WHERE id = ?" ∧
    (Database.update_author store (Models.UpdateAuthorRequest.new id)).isOk = false ∧
    ∃ e, Database.update_author store (Models.UpdateAuthorRequest.new id) =
      .error (.Other e) :=
  ⟨rfl, rfl, ⟨_, rfl⟩⟩

namespace Model

/-- Author entity of model.rs lines 95 to 118; ids are u64 here. -/
structure Author where
  id : Nat
  name : AuthorName
  email : EmailAddress
deriving DecidableEq

/-- Create error enumeration of model.rs lines 140 to 144. -/
inductive CreateAuthorError : Type where
  | Duplicate : List Char → CreateAuthorError
  | Unknown : AnyhowError → CreateAuthorError
deriving DecidableEq

/-- Find request of the model module, a bare numeric id. -/
structure FindAuthorRequest where
  id : Nat
deriving DecidableEq

/-- Find error enumeration of the model module. -/
inductive FindAuthorError : Type where
  | NotFound : Nat → FindAuthorError
  | Unknown : AnyhowError → FindAuthorError
deriving DecidableEq

/-- Find-all error wrapper of the model module. -/
structure FindAllAuthorsError where
  cause : AnyhowError
deriving DecidableEq

/-- Delete request of the model module, a bare numeric id. -/
structure DeleteAuthorRequest where
  id : Nat
deriving DecidableEq

/-- Delete error enumeration of the model module. -/
inductive DeleteAuthorError : Type where
  | NotFound : Nat → DeleteAuthorError
  | Unknown : AnyhowError → DeleteAuthorError
deriving DecidableEq

end Model

/-- Models parse to u64 of the Rust standard library, as used by the
TryFrom conversions of http/handler.rs lines 229 to 238 and 270 to 279:
an optional leading plus sign, then one or more ascii digits, no
surrounding whitespace, and the value must fit in 64 bits. -/
def parseU64 (s : List Char) : Option Nat :=
  let t := match s with
    | c :: rest => if c.toNat == 43 then rest else s
    | [] => s
  if t.isEmpty then none
  else if t.all (fun c => 48 ≤ c.toNat && c.toNat ≤ 57) then
    let v := t.foldl (fun acc c => acc * 10 + (c.toNat - 48)) 0
    if v < 2 ^ 64 then some v else none
  else none

namespace Handler

/-- Transport error enumeration of http/handler.rs lines 52 to 59. -/
inductive ApiError : Type where
  | InternalServerError : String → ApiError
  | BadRequest : String → ApiError
  | NotFound : String → ApiError
  | Conflict : String → ApiError
  | UnprocessableEntity : String → ApiError
deriving DecidableEq

/-- Status codes of http/handler.rs lines 61 to 71. -/
def ApiError.status : ApiError → Nat
  | .InternalServerError _ => 500
  | .BadRequest _ => 400
  | .NotFound _ => 404
  | .Conflict _ => 409
  | .UnprocessableEntity _ => 422

/-- Error mapping of http/handler.rs lines 103 to 115: a duplicate
becomes a conflict naming the author; an unknown error becomes the
fixed internal-server-error message, with the cause only logged. -/
def ApiError.fromCreateAuthorError : Model.CreateAuthorError → ApiError
  | .Duplicate name =>
    .Conflict ("author with name \"" ++ String.mk name ++ "\" already exists")
  | .Unknown _ => .InternalServerError ("Internal server error")

/-- Error mapping of http/handler.rs lines 117 to 129. -/
def ApiError.fromFindAuthorError : Model.FindAuthorError → ApiError
  | .NotFound id =>
    .NotFound ("author with id \"" ++ toString id ++ "\" does not exist")
  | .Unknown _ => .InternalServerError ("Internal server error")

/-- Error mapping of http/handler.rs lines 131 to 140. -/
def ApiError.fromFindAllAuthorsError : Model.FindAllAuthorsError → ApiError
  | _ => .InternalServerError ("Internal server error")

/-- Error mapping of http/handler.rs lines 142 to 154. -/
def ApiError.fromDeleteAuthorError : Model.DeleteAuthorError → ApiError
  | .NotFound id =>
    .NotFound ("author with id \"" ++ toString id ++ "\" does not exist")
  | .Unknown _ => .InternalServerError ("Internal server error")

/-- Malformed-identifier error of http/handler.rs lines 212 to 221,
carrying the raw text that failed to parse. -/
structure ParseIdError where
  id : String
deriving DecidableEq

/-- Error mapping of http/handler.rs lines 156 to 160. -/
def ApiError.fromParseIdError (e : ParseIdError) : ApiError :=
  .BadRequest ("Cannot parse id from \"" ++ e.id ++ "\"")

/-- TryFrom conversion of http/handler.rs lines 229 to 238: parse the
path segment as u64 or report the malformed identifier. -/
def FindAuthorRequest.try_from (s : String) : Except ParseIdError Model.FindAuthorRequest :=
  match parseU64 s.data with
  | some n => .ok ⟨n⟩
  | none => .error ⟨s⟩

/-- TryFrom conversion of http/handler.rs lines 270 to 279. -/
def DeleteAuthorRequest.try_from (s : String) : Except ParseIdError Model.DeleteAuthorRequest :=
  match parseU64 s.data with
  | some n => .ok ⟨n⟩
  | none => .error ⟨s⟩

/-- Wire response of http/handler.rs lines 240 to 255. -/
structure FindAuthorHttpResponse where
  id : Nat
  name : String
  email : String
deriving DecidableEq

/-- Conversion of http/handler.rs lines 247 to 255. -/
def FindAuthorHttpResponse.ofAuthor (a : Model.Author) : FindAuthorHttpResponse :=
  ⟨a.id, String.mk a.name.val, String.mk a.email.val⟩

/-- Find handler of http/handler.rs lines 294 to 305, with the
repository port abstracted as a function: convert the raw id, short
circuiting on a parse failure before any repository call, then call the
port and map the outcome.  Success carries status 200. -/
def find_author (repo : Model.FindAuthorRequest → Except Model.FindAuthorError Model.Author)
    (id : String) : Except ApiError (Nat × FindAuthorHttpResponse) :=
  match FindAuthorRequest.try_from id with
  | .error e => .error (ApiError.fromParseIdError e)
  | .ok req =>
    match repo req with
    | .error e => .error (ApiError.fromFindAuthorError e)
    | .ok a => .ok (200, FindAuthorHttpResponse.ofAuthor a)

/-- Delete handler of http/handler.rs lines 318 to 329, with the
repository port abstracted as a function.  Success carries status
204. -/
def delete_author (repo : Model.DeleteAuthorRequest → Except Model.DeleteAuthorError Unit)
    (id : String) : Except ApiError (Nat × Unit) :=
  match DeleteAuthorRequest.try_from id with
  | .error e => .error (ApiError.fromParseIdError e)
  | .ok req =>
    match repo req with
    | .error e => .error (ApiError.fromDeleteAuthorError e)
    | .ok _ => .ok (204, ())

end Handler

/-- C7: for any two causes, the transport outcome of an unknown-kind
domain error is identical, namely the fixed internal-server-error
message with status 500; the cause never reaches the caller through any
of the four error mappings. -/
theorem unknown_errors_uniform_response (c1 c2 : AnyhowError) :
    Handler.ApiError.fromCreateAuthorError (.Unknown c1) =
      .InternalServerError ("Internal server error") ∧
    Handler.ApiError.fromFindAuthorError (.Unknown c1) =
      .InternalServerError ("Internal server error") ∧
    Handler.ApiError.fromFindAllAuthorsError ⟨c1⟩ =
      .InternalServerError ("Internal server error") ∧
    Handler.ApiError.fromDeleteAuthorError (.Unknown c1) =
      .InternalServerError ("Internal server error") ∧
    Handler.ApiError.fromCreateAuthorError (.Unknown c1) =
      Handler.ApiError.fromCreateAuthorError (.Unknown c2) ∧
    Handler.ApiError.fromFindAuthorError (.Unknown c1) =
      Handler.ApiError.fromFindAuthorError (.Unknown c2) ∧
    Handler.ApiError.fromFindAllAuthorsError ⟨c1⟩ =
      Handler.ApiError.fromFindAllAuthorsError ⟨c2⟩ ∧
    Handler.ApiError.fromDeleteAuthorError (.Unknown c1) =
      Handler.ApiError.fromDeleteAuthorError (.Unknown c2) ∧
    (Handler.ApiError.fromCreateAuthorError (.Unknown c1)).status = 500 :=
  ⟨rfl, rfl, rfl, rfl, rfl, rfl, rfl, rfl, rfl⟩

/-- C8: an identifier string that fails to parse as u64 makes the find
and delete handlers answer with the BadRequest outcome, whose value
does not depend on the repository (the repository is never consulted)
and is distinct from every NotFound outcome. -/
theorem malformed_id_rejected_without_repo (s : String)
    (repoF : Model.FindAuthorRequest → Except Model.FindAuthorError Model.Author)
    (repoD : Model.DeleteAuthorRequest → Except Model.DeleteAuthorError Unit)
    (h : parseU64 s.data = none) :
    Handler.find_author repoF s =
      .error (.BadRequest ("Cannot parse id from \"" ++ s ++ "\"")) ∧
    Handler.delete_author repoD s =
      .error (.BadRequest ("Cannot parse id from \"" ++ s ++ "\"")) ∧
    (∀ repoF2, Handler.find_author repoF2 s = Handler.find_author repoF s) ∧
    (∀ repoD2, Handler.delete_author repoD2 s = Handler.delete_author repoD s) ∧
    (∀ msg, Handler.find_author repoF s ≠ .error (.NotFound msg)) ∧
    (∀ msg, Handler.delete_author repoD s ≠ .error (.NotFound msg)) := by
  have hf : Handler.FindAuthorRequest.try_from s = .error ⟨s⟩ := by
    simp [Handler.FindAuthorRequest.try_from, h]
  have hd : Handler.DeleteAuthorRequest.try_from s = .error ⟨s⟩ := by
    simp [Handler.DeleteAuthorRequest.try_from, h]
  refine ⟨?_, ?_, ?_, ?_, ?_, ?_⟩
  · simp [Handler.find_author, hf, Handler.ApiError.fromParseIdError]
  · simp [Handler.delete_author, hd, Handler.ApiError.fromParseIdError]
  · intro repoF2
    simp [Handler.find_author, hf]
  · intro repoD2
    simp [Handler.delete_author, hd]
  · intro msg
    simp [Handler.find_author, hf, Handler.ApiError.fromParseIdError]
  · intro msg
    simp [Handler.delete_author, hd, Handler.ApiError.fromParseIdError]

/-- Witness for the malformed-identifier theorem at the concrete
non-numeric path segment abc. -/
theorem malformed_id_rejected_without_repo_witness :
    parseU64 (("abc").data) = none ∧
    Handler.find_author (fun _ => .error (.Unknown (.fromSqlx .RowNotFound))) ("abc") =
      .error (.BadRequest ("Cannot parse id from \"" ++ "abc" ++ "\"")) :=
  ⟨by decide, (malformed_id_rejected_without_repo ("abc")
    (fun _ => .error (.Unknown (.fromSqlx .RowNotFound)))
    (fun _ => .error (.Unknown (.fromSqlx .RowNotFound)))
    (by decide)).1⟩
